import Mathlib

/-!
Shallow embedding of the xc CLI's token-lifecycle and cost-governance
layer: credential resolution with OAuth2 refresh (src/lib/api.ts),
budget configuration, password lock and budget gate (src/lib/budget.ts,
src/commands/budget.ts), and the usage ledger with windowed spend
aggregation (src/lib/cost.ts).

Modelling conventions:
* dollar amounts are exact rationals, times are integers (epoch ms);
* platform collaborators are explicit parameters: `parse` stands for
  `s ↦ new Date(s).getTime()` with `none` for `NaN`, `parseLine` for
  `JSON.parse(line) as UsageEntry` with `none` when `JSON.parse` throws,
  `scrypt` for `crypto.scryptSync(pw, salt, 64).toString("hex")`, and a
  refresh function for `refreshAccessToken`;
* file contents are explicit values (`Option` encodes a missing file);
* optional string/number fields use `Option`, with JS truthiness made
  explicit (`undefined`, `""` and `0` are falsy).
-/

namespace XC

/-- JS truthiness of an optional string field: `undefined` and `""` are
falsy, every other string is truthy. -/
def strFalsy : Option String → Bool
  | none => true
  | some s => s == ""

/-- JS truthiness of the optional `daily` number: `undefined` and `0` are
falsy (`NaN`, also falsy in JS, has no rational representative). -/
def numFalsy : Option ℚ → Bool
  | none => true
  | some d => d == 0

/-! ## Usage ledger (src/lib/cost.ts) -/

/-- One usage log entry (`UsageEntry`); the timestamp is kept as the raw
ISO string, exactly as the source stores it. -/
structure UsageEntry where
  timestamp : String
  endpoint : String
  method : String
  estimatedCost : ℚ
  deriving DecidableEq, Repr

/-- `COST_MAP`: estimated cost per SDK endpoint, in dollars. -/
def COST_MAP : List (String × ℚ) :=
  [("posts.searchRecent", 0.01),
   ("posts.searchAll", 0.02),
   ("posts.create", 0.01),
   ("posts.delete", 0.005),
   ("users.getMe", 0.005),
   ("users.getByUsername", 0.005),
   ("users.getPosts", 0.005),
   ("users.getTimeline", 0.005),
   ("users.likePost", 0.005),
   ("users.unlikePost", 0.005),
   ("users.getBookmarks", 0.005),
   ("users.createBookmark", 0.005),
   ("users.deleteBookmark", 0.005),
   ("users.getFollowers", 0.005),
   ("users.getFollowing", 0.005),
   ("users.followUser", 0.005),
   ("users.unfollowUser", 0.005),
   ("users.getOwnedLists", 0.005),
   ("lists.getPosts", 0.005),
   ("directMessages.createByParticipantId", 0.01),
   ("directMessages.getEvents", 0.005),
   ("directMessages.getEventsByParticipantId", 0.005),
   ("media.upload", 0.01),
   ("media.initializeUpload", 0.005),
   ("media.appendUpload", 0.0),
   ("media.finalizeUpload", 0.005),
   ("media.getUploadStatus", 0.0),
   ("usage.get", 0.0),
   ("stream.getRules", 0.0),
   ("stream.updateRules", 0.005),
   ("stream.posts", 0.0),
   ("users.repostPost", 0.005),
   ("users.unrepostPost", 0.005),
   ("users.getMentions", 0.005),
   ("posts.getQuoteTweets", 0.005),
   ("posts.getLikingUsers", 0.005),
   ("posts.getRetweetedBy", 0.005),
   ("users.getLikedPosts", 0.005),
   ("posts.hideReply", 0.005),
   ("posts.unhideReply", 0.005),
   ("users.muteUser", 0.005),
   ("users.unmuteUser", 0.005),
   ("users.getMuting", 0.005),
   ("users.blockUser", 0.005),
   ("users.unblockUser", 0.005),
   ("users.getBlocking", 0.005),
   ("users.search", 0.01),
   ("lists.create", 0.005),
   ("lists.update", 0.005),
   ("lists.delete", 0.005),
   ("lists.getMembers", 0.005),
   ("lists.addMember", 0.005),
   ("lists.removeMember", 0.005),
   ("users.followList", 0.005),
   ("users.unfollowList", 0.005),
   ("users.pinList", 0.005),
   ("users.unpinList", 0.005),
   ("trends.getPersonalized", 0.005),
   ("trends.getByWoeid", 0.005)]

/-- `DEFAULT_COST`: cost for endpoints missing from the map. -/
def DEFAULT_COST : ℚ := 0.005

/-- `estimateCost(endpoint)`: `COST_MAP[endpoint] ?? DEFAULT_COST`. -/
def estimateCost (endpoint : String) : ℚ :=
  ((COST_MAP.find? (fun p => p.1 == endpoint)).map Prod.snd).getD DEFAULT_COST

/-- Executable model of JS `String.prototype.trim()`: drop whitespace
from both ends (recursing over the character list, so that concrete
instances evaluate inside the kernel). -/
def jsTrim (s : String) : String :=
  String.mk
    (((s.data.dropWhile Char.isWhitespace).reverse.dropWhile
        Char.isWhitespace).reverse)

/-- Helper for `jsSplitNewline`: accumulate the current line (reversed). -/
def jsSplitNewlineAux : List Char → List Char → List String
  | [], acc => [String.mk acc.reverse]
  | c :: cs, acc =>
    if c = '\n' then String.mk acc.reverse :: jsSplitNewlineAux cs []
    else jsSplitNewlineAux cs (c :: acc)

/-- Executable model of JS `raw.split("\n")`: split at every newline,
keeping empty pieces (`"" ↦ [""]`). -/
def jsSplitNewline (s : String) : List String :=
  jsSplitNewlineAux s.data []

/-- `loadUsageLog()`: read all entries from usage.jsonl.  `file` holds the
raw file contents (`none` when the file does not exist); `parseLine`
stands for `JSON.parse(line) as UsageEntry` (`none` exactly when
`JSON.parse` throws, in which case the line is skipped). -/
def loadUsageLog (parseLine : String → Option UsageEntry)
    (file : Option String) : List UsageEntry :=
  match file with
  | none => []
  | some contents =>
    let raw := jsTrim contents
    if raw == "" then []
    else
      (jsSplitNewline raw).foldl (fun entries line =>
        match parseLine line with
        | some e => entries ++ [e]
        | none => entries) []

/-- `computeSpend(entries, windowMs)`: sum costs of entries whose parsed
timestamp is `>= now - windowMs`.  A timestamp whose `new Date` time is
`NaN` (here: `parse` returns `none`) fails the `>=` comparison and the
entry is skipped. -/
def computeSpend (parse : String → Option ℤ) (now : ℤ)
    (entries : List UsageEntry) (windowMs : ℤ) : ℚ :=
  let cutoff := now - windowMs
  entries.foldl (fun total entry =>
    match parse entry.timestamp with
    | some t => if cutoff ≤ t then total + entry.estimatedCost else total
    | none => total) 0

/-- `computeTodaySpend(entries)`: sum costs of entries at or after local
midnight; `midnight` is the precomputed epoch-ms value of today's local
midnight. -/
def computeTodaySpend (parse : String → Option ℤ) (midnight : ℤ)
    (entries : List UsageEntry) : ℚ :=
  entries.foldl (fun total entry =>
    match parse entry.timestamp with
    | some t => if midnight ≤ t then total + entry.estimatedCost else total
    | none => total) 0

/-! ## Budget configuration and password lock (src/lib/budget.ts) -/

/-- `BudgetConfig`.  The `action` field is a plain string at runtime (the
TS cast performs no validation); valid values are `"block"`, `"warn"`,
`"confirm"`. -/
structure BudgetConfig where
  daily : Option ℚ
  action : String
  passwordHash : Option String
  passwordSalt : Option String
  deriving DecidableEq, Repr

/-- JSON values, as far as budget.json needs them. -/
inductive Json where
  | num (q : ℚ)
  | str (s : String)
  | obj (fields : List (String × Json))

/-- Property lookup on a JSON object (`undefined` on anything else). -/
def jsonGet (j : Json) (key : String) : Option Json :=
  match j with
  | .obj fields => (fields.find? (fun p => p.1 == key)).map Prod.snd
  | _ => none

/-- Read an optional number property. -/
def jsonNum (j : Option Json) : Option ℚ :=
  match j with
  | some (.num q) => some q
  | _ => none

/-- Read an optional string property. -/
def jsonStr (j : Option Json) : Option String :=
  match j with
  | some (.str s) => some s
  | _ => none

/-- `JSON.stringify` of a `BudgetConfig`: object with the defined fields,
in declaration order (`undefined` fields are omitted). -/
def budgetToJson (cfg : BudgetConfig) : Json :=
  .obj ((match cfg.daily with
         | some d => [("daily", Json.num d)]
         | none => []) ++
        [("action", Json.str cfg.action)] ++
        (match cfg.passwordHash with
         | some h => [("passwordHash", Json.str h)]
         | none => []) ++
        (match cfg.passwordSalt with
         | some s => [("passwordSalt", Json.str s)]
         | none => []))

/-- `JSON.parse(raw) as BudgetConfig`: an unchecked cast, so each field is
whatever the JSON object holds at that key (`undefined`, surfacing as
`""` for the non-optional `action`, when absent or of the wrong type). -/
def budgetOfJson (j : Json) : BudgetConfig :=
  { daily := jsonNum (jsonGet j "daily"),
    action := (jsonStr (jsonGet j "action")).getD "",
    passwordHash := jsonStr (jsonGet j "passwordHash"),
    passwordSalt := jsonStr (jsonGet j "passwordSalt") }

/-- `loadBudget()`: defaults to `{action: "warn"}` when budget.json does
not exist, otherwise parses the file.  `file` holds the JSON value stored
in budget.json (`none` when the file does not exist). -/
def loadBudget (file : Option Json) : BudgetConfig :=
  match file with
  | none => { daily := none, action := "warn",
              passwordHash := none, passwordSalt := none }
  | some j => budgetOfJson j

/-- `saveBudget(config)`: overwrite budget.json with the serialised
config. -/
def saveBudget (cfg : BudgetConfig) (_file : Option Json) : Option Json :=
  some (budgetToJson cfg)

/-- `hashPassword(password, salt)`: `scrypt` stands for
`crypto.scryptSync(password, salt, 64).toString("hex")`. -/
def hashPassword (scrypt : String → String → String)
    (password salt : String) : String :=
  scrypt password salt

/-- `isLocked()`: `!!(budget.passwordHash && budget.passwordSalt)`. -/
def isLocked (cfg : BudgetConfig) : Bool :=
  !(strFalsy cfg.passwordHash) && !(strFalsy cfg.passwordSalt)

/-- `verifyPassword(password)`: `true` when no lock is configured,
otherwise re-derive and compare the hash. -/
def verifyPassword (scrypt : String → String → String)
    (cfg : BudgetConfig) (password : String) : Bool :=
  if strFalsy cfg.passwordHash || strFalsy cfg.passwordSalt then true
  else hashPassword scrypt password (cfg.passwordSalt.getD "")
         == cfg.passwordHash.getD ""

/-- `lockBudget(password)`: store a fresh salt (`salt`, produced by
`crypto.randomBytes(32).toString("hex")`) and the derived hash, keeping
the other fields. -/
def lockBudget (scrypt : String → String → String) (salt : String)
    (password : String) (cfg : BudgetConfig) : BudgetConfig :=
  { cfg with passwordSalt := some salt,
             passwordHash := some (hashPassword scrypt password salt) }

/-- `unlockBudget()`: delete both password fields. -/
def unlockBudget (cfg : BudgetConfig) : BudgetConfig :=
  { cfg with passwordHash := none, passwordSalt := none }

/-- Observable outcome of `checkBudget`: return normally (`ok`), print a
warning and return (`warned`), throw (`blocked` / `cancelled`), or return
after an affirmative confirmation prompt (`confirmProceed`). -/
inductive CheckResult where
  | ok
  | warned
  | blocked
  | confirmProceed
  | cancelled
  deriving DecidableEq, Repr

/-- `checkBudget(endpoint)`: gate an API call on the daily budget.
`cfg` and `entries` are the loaded budget.json and usage ledger;
`answer` is the line the user would type at the `confirm` prompt.
A `switch` without a matching case (unknown `action` string) falls
through and the function returns normally. -/
def checkBudget (parse : String → Option ℤ) (midnight : ℤ)
    (cfg : BudgetConfig) (entries : List UsageEntry)
    (endpoint : String) (answer : String) : CheckResult :=
  if numFalsy cfg.daily then .ok
  else
    let todaySpend := computeTodaySpend parse midnight entries
    let callCost := estimateCost endpoint
    if todaySpend + callCost ≤ cfg.daily.getD 0 then .ok
    else if cfg.action = "block" then .blocked
    else if cfg.action = "warn" then .warned
    else if cfg.action = "confirm" then
      if answer.toLower = "y" then .confirmProceed else .cancelled
    else .ok

/-- Outcome of `requirePasswordIfLocked` (src/commands/budget.ts):
return normally, or `process.exit(1)` with one of two messages. -/
inductive LockGate where
  | proceed
  | exitPasswordRequired
  | exitIncorrectPassword
  deriving DecidableEq, Repr

/-- `requirePasswordIfLocked(password?)`: no-op when not locked; when
locked, exit unless a correct password was supplied (`!password` is JS
truthiness, so a missing or empty `--password` counts as absent). -/
def requirePasswordIfLocked (scrypt : String → String → String)
    (cfg : BudgetConfig) (password : Option String) : LockGate :=
  if !(isLocked cfg) then .proceed
  else if strFalsy password then .exitPasswordRequired
  else if !(verifyPassword scrypt cfg (password.getD "")) then
    .exitIncorrectPassword
  else .proceed

/-! ## Account store (src/lib/config.ts) and credential resolver
(src/lib/api.ts) -/

/-- `AuthCredential`; the `type` field is a plain string at runtime
(`"oauth2"` or `"bearer"` when well-formed). -/
structure AuthCredential where
  type : String
  accessToken : Option String
  refreshToken : Option String
  expiresAt : Option ℤ
  bearerToken : Option String
  clientId : Option String
  deriving DecidableEq, Repr

/-- `AccountConfig`. -/
structure AccountConfig where
  name : String
  auth : AuthCredential
  userId : Option String
  username : Option String
  deriving DecidableEq, Repr

/-- `XcConfig`: the parsed config.json.  `accounts` is a JS object keyed
by account name, modelled as an association list in insertion order. -/
structure XcConfig where
  defaultAccount : String
  accounts : List (String × AccountConfig)
  deriving DecidableEq, Repr

/-- JS property read `accounts[name]`. -/
def lookupAccount (accounts : List (String × AccountConfig))
    (name : String) : Option AccountConfig :=
  (accounts.find? (fun p => p.1 == name)).map Prod.snd

/-- JS property write `accounts[name] = account`: overwrite in place when
the key exists, otherwise append. -/
def storeAccount (accounts : List (String × AccountConfig))
    (name : String) (account : AccountConfig) :
    List (String × AccountConfig) :=
  if accounts.any (fun p => p.1 == name) then
    accounts.map (fun p => if p.1 == name then (name, account) else p)
  else
    accounts ++ [(name, account)]

/-- `getAccount(name?)`: look up the named account, falling back to
`config.defaultAccount`. -/
def getAccount (cfg : XcConfig) (name : Option String) :
    Option AccountConfig :=
  lookupAccount cfg.accounts (name.getD cfg.defaultAccount)

/-- `setAccount(name, account)`: store and persist the account record. -/
def setAccount (cfg : XcConfig) (name : String)
    (account : AccountConfig) : XcConfig :=
  { cfg with accounts := storeAccount cfg.accounts name account }

/-- Argument of `refreshAccessToken` (src/lib/oauth.ts). -/
structure RefreshParams where
  clientId : String
  refreshToken : String
  deriving DecidableEq, Repr

/-- `OAuthFlowResult`: a successful response of `refreshAccessToken`. -/
structure OAuthFlowResult where
  accessToken : String
  refreshToken : Option String
  expiresAt : ℤ
  scopes : String
  deriving DecidableEq, Repr

/-- `resolveToken(accountName?)` (src/lib/api.ts): produce a valid access
token, refreshing an expiring OAuth2 credential and persisting the
update.  `refresh` stands for a *successful* `refreshAccessToken` call;
`now` is `Date.now()`.  Returns the token together with the resulting
config store (unchanged on every path that does not call
`setAccount`). -/
def resolveToken (cfg : XcConfig) (now : ℤ)
    (refresh : RefreshParams → OAuthFlowResult)
    (accountName : Option String) : Except String (String × XcConfig) :=
  match getAccount cfg accountName with
  | none =>
    .error ("No account configured" ++
      (match accountName with
       | some n => " (" ++ n ++ ")"
       | none => "") ++ ". Run: xc auth login")
  | some account =>
    let auth := account.auth
    if auth.type = "bearer" then
      if strFalsy auth.bearerToken then
        .error "Bearer token is empty. Run: xc auth token <TOKEN>"
      else .ok (auth.bearerToken.getD "", cfg)
    else if auth.type = "oauth2" then
      if strFalsy auth.accessToken then
        .error "No access token. Run: xc auth login"
      else
        let expiresAt := auth.expiresAt.getD 0
        if expiresAt - 60000 ≤ now then
          if strFalsy auth.refreshToken || strFalsy auth.clientId then
            .error
              "Token expired and no refresh token available. Run: xc auth login"
          else
            let result := refresh
              { clientId := auth.clientId.getD "",
                refreshToken := auth.refreshToken.getD "" }
            let updatedAuth : AuthCredential :=
              { auth with
                  accessToken := some result.accessToken,
                  refreshToken :=
                    result.refreshToken.orElse (fun _ => auth.refreshToken),
                  expiresAt := some result.expiresAt }
            let cfg2 := setAccount cfg (accountName.getD "default")
              { account with auth := updatedAuth }
            .ok (result.accessToken, cfg2)
        else .ok (auth.accessToken.getD "", cfg)
    else .error ("Unknown auth type: " ++ auth.type)

/-! ## Specification-side definitions

Sums written in the words of the spec, to be compared with the
source-derived `computeSpend`. -/

/-- Contribution of a single entry to a cutoff-based spend sum: its cost
when its parsed timestamp is at or after the cutoff, otherwise 0. -/
def spendContrib (parse : String → Option ℤ) (cutoff : ℤ)
    (e : UsageEntry) : ℚ :=
  match parse e.timestamp with
  | some t => if cutoff ≤ t then e.estimatedCost else 0
  | none => 0

/-- The window predicate exactly as claim C6 words it:
`now - timestamp < windowMs` (strict). -/
def inWindowStrict (parse : String → Option ℤ) (now windowMs : ℤ)
    (e : UsageEntry) : Bool :=
  match parse e.timestamp with
  | some t => decide (now - t < windowMs)
  | none => false

/-- The spend described by the words of claim C6: sum of `estimatedCost`
over entries whose timestamp satisfies `now - timestamp < windowMs`. -/
def claimedSpendStrict (parse : String → Option ℤ) (now : ℤ)
    (entries : List UsageEntry) (windowMs : ℤ) : ℚ :=
  ((entries.filter (inWindowStrict parse now windowMs)).map
    (fun e => e.estimatedCost)).sum

/-- The window predicate the code actually implements:
`now - timestamp ≤ windowMs`, i.e. `timestamp ≥ now - windowMs`. -/
def inWindowIncl (parse : String → Option ℤ) (now windowMs : ℤ)
    (e : UsageEntry) : Bool :=
  match parse e.timestamp with
  | some t => decide (now - t ≤ windowMs)
  | none => false

/-- Sum of `estimatedCost` over entries with
`now - timestamp ≤ windowMs` (the amended form of claim C6). -/
def specSpendIncl (parse : String → Option ℤ) (now : ℤ)
    (entries : List UsageEntry) (windowMs : ℤ) : ℚ :=
  ((entries.filter (inWindowIncl parse now windowMs)).map
    (fun e => e.estimatedCost)).sum

/-! ## Concrete fixtures used by counterexamples and witnesses -/

/-- Timestamp parser fixture: a clock that knows "TODAY" (epoch ms 5) and
treats everything else as unparseable (`NaN`). -/
def parseFix : String → Option ℤ :=
  fun s =>
    if s == "TODAY" then some 5 else if s == "T0" then some 0 else none

/-- A ledger entry written today, costing $0.01. -/
def entryToday : UsageEntry :=
  { timestamp := "TODAY", endpoint := "posts.searchRecent",
    method := "GET", estimatedCost := 0.01 }

/-- Budget fixture for claim C2: daily ceiling $0.015, blocking action. -/
def budgetC2 : BudgetConfig :=
  { daily := some 0.015, action := "block",
    passwordHash := none, passwordSalt := none }

/-- Budget fixture for claim C8: `daily` present but equal to 0. -/
def budgetC8 : BudgetConfig :=
  { daily := some 0, action := "block",
    passwordHash := none, passwordSalt := none }

/-- Ledger entry fixture for claim C8: an expensive call logged today. -/
def entryC8 : UsageEntry :=
  { timestamp := "TODAY", endpoint := "posts.searchAll",
    method := "GET", estimatedCost := 5 }

/-- Ledger lines fixture for claim C5 (mirroring the repository's own
test): two lines that `JSON.parse` accepts with one malformed line
between them. -/
def lineC5a : String := "valid-json-line-a"

/-- The malformed middle line of the C5 fixture. -/
def lineC5bad : String := "not-valid-json"

/-- The second valid line of the C5 fixture. -/
def lineC5b : String := "valid-json-line-b"

/-- The whole usage.jsonl contents of the C5 fixture. -/
def fileC5 : String := lineC5a ++ "\n" ++ lineC5bad ++ "\n" ++ lineC5b

/-- Entry produced by parsing `lineC5a`. -/
def entryC5a : UsageEntry :=
  { timestamp := "2025-01-01T00:00:00Z", endpoint := "a",
    method := "GET", estimatedCost := 0.01 }

/-- Entry produced by parsing `lineC5b`. -/
def entryC5b : UsageEntry :=
  { timestamp := "2025-01-01T00:00:01Z", endpoint := "b",
    method := "GET", estimatedCost := 0.02 }

/-- Line parser fixture standing for `JSON.parse ∘ cast` on the C5 lines:
accepts the two valid lines, throws on everything else. -/
def parseLineC5 : String → Option UsageEntry :=
  fun s =>
    if s = lineC5a then some entryC5a
    else if s = lineC5b then some entryC5b
    else none

/-- scrypt fixture for witnesses: prepends a marker character to the
password (injective in the password, never empty). -/
def scryptFix : String → String → String :=
  fun password _ => String.mk ('H' :: password.data)

/-- An unlocked budget fixture (no password fields). -/
def budgetUnlocked : BudgetConfig :=
  { daily := some 5, action := "warn",
    passwordHash := none, passwordSalt := none }

/-- A budget fixture with the pairing invariant broken: a hash but no
salt (e.g. after an external edit of budget.json). -/
def budgetHashOnly : BudgetConfig :=
  { daily := some 5, action := "block",
    passwordHash := some "deadbeef", passwordSalt := none }

/-- OAuth2 credential fixture whose token expires exactly 60 s after
`now = 0` (the boundary case of claim C3). -/
def authC3 : AuthCredential :=
  { type := "oauth2", accessToken := some "OLD",
    refreshToken := some "RT", expiresAt := some 60000,
    bearerToken := none, clientId := some "CID" }

/-- Account fixture for claim C3. -/
def acctC3 : AccountConfig :=
  { name := "default", auth := authC3, userId := none, username := none }

/-- Config-store fixture for claim C3. -/
def cfgC3 : XcConfig :=
  { defaultAccount := "default", accounts := [("default", acctC3)] }

/-- Refresh fixture for claim C3: succeeds with a new token pair. -/
def rfC3 : RefreshParams → OAuthFlowResult :=
  fun _ => { accessToken := "NEW", refreshToken := some "RT2",
             expiresAt := 7260000, scopes := "" }

/-- OAuth2 credential fixture that is comfortably fresh at `now = 0`
(expires 1 000 000 ms ahead), for the amended claim C3 witness. -/
def authFresh : AuthCredential :=
  { type := "oauth2", accessToken := some "LIVE",
    refreshToken := some "RT", expiresAt := some 1000000,
    bearerToken := none, clientId := some "CID" }

/-- Account fixture holding `authFresh`. -/
def acctFresh : AccountConfig :=
  { name := "default", auth := authFresh, userId := none,
    username := none }

/-- Config-store fixture holding `acctFresh`. -/
def cfgFresh : XcConfig :=
  { defaultAccount := "default", accounts := [("default", acctFresh)] }

/-- A second refresh fixture, returning different data than `rfC3`, used
to show the resolver's output does not depend on the refresh call. -/
def rfOther : RefreshParams → OAuthFlowResult :=
  fun _ => { accessToken := "OTHER", refreshToken := none,
             expiresAt := 42, scopes := "x" }

/-- Expiring OAuth2 credential fixture for claim C1, stored under the
account name "work". -/
def authC1 : AuthCredential :=
  { type := "oauth2", accessToken := some "OLD",
    refreshToken := some "RT", expiresAt := some 0,
    bearerToken := none, clientId := some "CID" }

/-- The "work" account record for claim C1. -/
def acctC1 : AccountConfig :=
  { name := "work", auth := authC1, userId := some "U1",
    username := some "alice" }

/-- Config-store fixture for claim C1: the configured default account is
named "work", not "default". -/
def cfgC1 : XcConfig :=
  { defaultAccount := "work", accounts := [("work", acctC1)] }

/-- Refresh fixture for claim C1: succeeds, omitting the refresh token
(so the stored one must be kept). -/
def rfC1 : RefreshParams → OAuthFlowResult :=
  fun _ => { accessToken := "NEW", refreshToken := none,
             expiresAt := 7200000, scopes := "" }

/-- The credential as merged by a successful refresh of `authC1` via
`rfC1`: new access token and expiry, the old refresh token kept, all
other fields preserved. -/
def authC1upd : AuthCredential :=
  { type := "oauth2", accessToken := some "NEW",
    refreshToken := some "RT", expiresAt := some 7200000,
    bearerToken := none, clientId := some "CID" }

/-- The config store actually produced by the C1 refresh: the stale
"work" record survives and the update lands under the literal key
"default". -/
def cfgC1after : XcConfig :=
  { defaultAccount := "work",
    accounts := [("work", acctC1),
                 ("default", { acctC1 with auth := authC1upd })] }

/-- Entry fixture for claims C6/C10: parsed time 0, integer cost. -/
def entryT0 : UsageEntry :=
  { timestamp := "T0", endpoint := "e", method := "GET",
    estimatedCost := 1 }

/-- Entry fixture with an unparseable timestamp (claim C10). -/
def entryBadTs : UsageEntry :=
  { timestamp := "not-a-date", endpoint := "e", method := "GET",
    estimatedCost := 1 }

/-! ## Helper lemmas -/

/-- The spend fold adds, to its accumulator, the sum of the per-entry
contributions. -/
theorem spend_foldl_eq (parse : String → Option ℤ) (cutoff : ℤ)
    (entries : List UsageEntry) (init : ℚ) :
    entries.foldl (fun total entry =>
      match parse entry.timestamp with
      | some t => if cutoff ≤ t then total + entry.estimatedCost else total
      | none => total) init
      = init + (entries.map (spendContrib parse cutoff)).sum := by
  induction entries generalizing init with
  | nil => simp
  | cons e es ih =>
    simp only [List.foldl_cons, List.map_cons, List.sum_cons]
    rw [ih]
    cases hp : parse e.timestamp with
    | none => simp [spendContrib, hp]
    | some t =>
      by_cases hc : cutoff ≤ t <;> (simp [spendContrib, hp, hc]; try ring)

/-- `computeSpend` as a sum of per-entry contributions with cutoff
`now - windowMs`. -/
theorem computeSpend_eq_sum (parse : String → Option ℤ) (now : ℤ)
    (entries : List UsageEntry) (windowMs : ℤ) :
    computeSpend parse now entries windowMs
      = (entries.map (spendContrib parse (now - windowMs))).sum := by
  simpa [computeSpend] using
    spend_foldl_eq parse (now - windowMs) entries 0

/-- `computeTodaySpend` as a sum of per-entry contributions with cutoff
`midnight`. -/
theorem computeTodaySpend_eq_sum (parse : String → Option ℤ)
    (midnight : ℤ) (entries : List UsageEntry) :
    computeTodaySpend parse midnight entries
      = (entries.map (spendContrib parse midnight)).sum := by
  simpa [computeTodaySpend] using
    spend_foldl_eq parse midnight entries 0

/-- The filtered inclusive-window sum coincides with the sum of
contributions. -/
theorem specSpendIncl_eq_sum (parse : String → Option ℤ) (now : ℤ)
    (entries : List UsageEntry) (windowMs : ℤ) :
    specSpendIncl parse now entries windowMs
      = (entries.map (spendContrib parse (now - windowMs))).sum := by
  induction entries with
  | nil => simp [specSpendIncl]
  | cons e es ih =>
    simp only [specSpendIncl, List.filter_cons] at ih ⊢
    cases hp : parse e.timestamp with
    | none => simp [inWindowIncl, hp, spendContrib, ih]
    | some t =>
      by_cases hc : now - t ≤ windowMs
      · have hc2 : now - windowMs ≤ t := by omega
        simp [inWindowIncl, hp, hc, spendContrib, hc2, ih]
      · have hc2 : ¬ now - windowMs ≤ t := by omega
        simp [inWindowIncl, hp, hc, spendContrib, hc2, ih]

/-! ## Claim theorems -/

/-- C7: `saveBudget(cfg)` followed by `loadBudget()` yields a value
deep-equal to `cfg`, for every budget configuration and any previous
contents of budget.json. -/
theorem saveBudget_loadBudget_roundtrip (cfg : BudgetConfig)
    (file : Option Json) :
    loadBudget (saveBudget cfg file) = cfg := by
  rcases cfg with ⟨daily, action, hash, salt⟩
  cases daily <;> cases hash <;> cases salt <;> rfl

/-- C9: when exactly one of `passwordHash`/`passwordSalt` is present in
the stored budget, the lock fails open: `isLocked()` is false,
`verifyPassword` accepts every input, and budget set/reset
(`requirePasswordIfLocked`) proceed without any password. -/
theorem lock_pairing_broken_fails_open
    (scrypt : String → String → String) (cfg : BudgetConfig)
    (hbroken :
      (cfg.passwordHash.isSome = true ∧ cfg.passwordSalt = none)
      ∨ (cfg.passwordHash = none ∧ cfg.passwordSalt.isSome = true)) :
    isLocked cfg = false
    ∧ (∀ p, verifyPassword scrypt cfg p = true)
    ∧ (∀ password, requirePasswordIfLocked scrypt cfg password
        = .proceed) := by
  have hl : isLocked cfg = false := by
    rcases hbroken with ⟨h1, h2⟩ | ⟨h1, h2⟩ <;>
      simp [isLocked, strFalsy, h1, h2]
  refine ⟨hl, ?_, ?_⟩
  · intro p
    rcases hbroken with ⟨h1, h2⟩ | ⟨h1, h2⟩ <;>
      simp [verifyPassword, strFalsy, h1, h2]
  · intro password
    simp [requirePasswordIfLocked, hl]

/-- C9 witness: a config holding a hash but no salt. -/
theorem lock_pairing_broken_fails_open_witness :
    (budgetHashOnly.passwordHash.isSome = true
      ∧ budgetHashOnly.passwordSalt = none)
    ∧ (isLocked budgetHashOnly = false
       ∧ (∀ p, verifyPassword scryptFix budgetHashOnly p = true)
       ∧ (∀ password,
           requirePasswordIfLocked scryptFix budgetHashOnly password
             = .proceed)) :=
  ⟨⟨rfl, rfl⟩,
   lock_pairing_broken_fails_open scryptFix budgetHashOnly
     (Or.inl ⟨rfl, rfl⟩)⟩

/-- C8: a persisted `daily` of 0 disables governance: `checkBudget`
returns normally for every ledger and endpoint, its result does not
depend on the ledger, and it behaves exactly like an unset `daily`. -/
theorem checkBudget_zero_daily_disables
    (parse : String → Option ℤ) (midnight : ℤ) (cfg : BudgetConfig)
    (entries entries2 : List UsageEntry) (endpoint : String)
    (answer : String) (hzero : cfg.daily = some 0) :
    checkBudget parse midnight cfg entries endpoint answer = .ok
    ∧ checkBudget parse midnight cfg entries endpoint answer
        = checkBudget parse midnight cfg entries2 endpoint answer
    ∧ checkBudget parse midnight { cfg with daily := none } entries
        endpoint answer = .ok := by
  refine ⟨?_, ?_, ?_⟩ <;> simp [checkBudget, numFalsy, hzero]

/-- C8 witness: daily = 0 with an expensive ledger entry. -/
theorem checkBudget_zero_daily_disables_witness :
    budgetC8.daily = some 0
    ∧ (checkBudget parseFix 0 budgetC8 [entryC8] "posts.searchAll" ""
         = .ok
       ∧ checkBudget parseFix 0 budgetC8 [entryC8] "posts.searchAll" ""
           = checkBudget parseFix 0 budgetC8 [] "posts.searchAll" ""
       ∧ checkBudget parseFix 0 { budgetC8 with daily := none }
           [entryC8] "posts.searchAll" "" = .ok) :=
  ⟨rfl,
   checkBudget_zero_daily_disables parseFix 0 budgetC8 [entryC8] []
     "posts.searchAll" "" rfl⟩

/-- C2: `checkBudget` succeeds with no error, warning or prompt when no
daily ceiling is configured, and whenever today's spend plus the call
cost is at or under the ceiling (inclusive); in particular at the exact
boundary daily = 0.015, todaySpend = 0.01, callCost = 0.005. -/
theorem checkBudget_within_limit_ok
    (parse : String → Option ℤ) (midnight : ℤ) (cfg : BudgetConfig)
    (entries : List UsageEntry) (endpoint : String) (answer : String) :
    (cfg.daily = none →
      checkBudget parse midnight cfg entries endpoint answer = .ok)
    ∧ (∀ d : ℚ, cfg.daily = some d →
        computeTodaySpend parse midnight entries + estimateCost endpoint
          ≤ d →
        checkBudget parse midnight cfg entries endpoint answer = .ok)
    ∧ checkBudget parseFix 0 budgetC2 [entryToday] "posts.delete" ""
        = .ok := by
  refine ⟨?_, ?_, ?_⟩
  · intro h
    simp [checkBudget, numFalsy, h]
  · intro d hd hle
    by_cases h0 : d = 0
    · simp [checkBudget, numFalsy, hd, h0]
    · simp [checkBudget, numFalsy, hd, h0, hle]
  · have hcost : estimateCost "posts.delete" = 0.005 := rfl
    have hspend : computeTodaySpend parseFix 0 [entryToday] = 0.01 := by
      simp [computeTodaySpend, parseFix, entryToday]
    norm_num [checkBudget, numFalsy, budgetC2, hspend, hcost]

/-- The ledger-read fold pushes exactly the parsed lines, in order. -/
theorem load_foldl_eq (parseLine : String → Option UsageEntry)
    (lines : List String) (acc : List UsageEntry) :
    lines.foldl (fun entries line =>
      match parseLine line with
      | some e => entries ++ [e]
      | none => entries) acc = acc ++ lines.filterMap parseLine := by
  induction lines generalizing acc with
  | nil => simp
  | cons l ls ih =>
    simp only [List.foldl_cons, List.filterMap_cons]
    cases hp : parseLine l with
    | none => simp [hp, ih]
    | some e => simp [hp, ih]

/-- C5: loading the usage ledger returns exactly the lines the line
parser accepts, in file order, silently skipping malformed lines; a
missing or empty file yields the empty sequence; and on the concrete
three-line fixture (valid, malformed, valid) exactly the two valid
entries come back in original order. -/
theorem loadUsageLog_skips_malformed
    (parseLine : String → Option UsageEntry) :
    loadUsageLog parseLine none = []
    ∧ loadUsageLog parseLine (some "") = []
    ∧ (∀ contents : String,
        loadUsageLog parseLine (some contents)
          = if jsTrim contents == "" then []
            else (jsSplitNewline (jsTrim contents)).filterMap parseLine)
    ∧ loadUsageLog parseLineC5 (some fileC5) = [entryC5a, entryC5b] := by
  refine ⟨rfl, rfl, ?_, rfl⟩
  intro contents
  by_cases h : jsTrim contents == ""
  · simp [loadUsageLog, h]
  · simp [loadUsageLog, h, load_foldl_eq]

/-- `scryptFix` never returns the empty string. -/
theorem scryptFix_ne_empty (password salt : String) :
    scryptFix password salt ≠ "" := by
  intro h
  have h2 : 'H' :: password.data = ("" : String).data :=
    congrArg String.data h
  simp at h2

/-- `scryptFix` is injective in the password. -/
theorem scryptFix_inj (p q s1 s2 : String)
    (h : scryptFix p s1 = scryptFix q s2) : p = q := by
  rcases p with ⟨dp⟩
  rcases q with ⟨dq⟩
  simp only [scryptFix] at h
  injection h with h2
  injection h2 with _ h3
  exact congrArg String.mk h3

/-- C4: with no lock configured every password verifies; after
`lockBudget(pw)` a password verifies exactly when it equals `pw`
(assuming the key-derivation function is collision-free in the password
for the chosen salt and its output, like scrypt's 128-hex-char digest,
is never empty, the salt being a nonempty hex string); after
`unlockBudget()` every password verifies again. -/
theorem verifyPassword_lock_unlock_cycle
    (scrypt : String → String → String) (cfg : BudgetConfig)
    (salt pw : String) (hnolock : isLocked cfg = false)
    (hsalt : salt ≠ "")
    (hne : ∀ p : String, scrypt p salt ≠ "")
    (hinj : ∀ p q : String, scrypt p salt = scrypt q salt → p = q) :
    (∀ p, verifyPassword scrypt cfg p = true)
    ∧ (∀ p, (verifyPassword scrypt (lockBudget scrypt salt pw cfg) p
        = true ↔ p = pw))
    ∧ (∀ p, verifyPassword scrypt
        (unlockBudget (lockBudget scrypt salt pw cfg)) p = true) := by
  refine ⟨?_, ?_, ?_⟩
  · intro p
    by_cases hh : strFalsy cfg.passwordHash = true
    · simp [verifyPassword, hh]
    · by_cases hs : strFalsy cfg.passwordSalt = true
      · simp [verifyPassword, hs]
      · exfalso
        rw [Bool.not_eq_true] at hh hs
        rw [isLocked, hh, hs] at hnolock
        simp at hnolock
  · intro p
    have hb : verifyPassword scrypt (lockBudget scrypt salt pw cfg) p
        = true ↔ scrypt p salt = scrypt pw salt := by
      simp [verifyPassword, lockBudget, hashPassword, strFalsy, hne pw,
        hsalt]
    rw [hb]
    exact ⟨hinj p pw, fun h => h ▸ rfl⟩
  · intro p
    simp [verifyPassword, unlockBudget, strFalsy]

/-- C4 witness: the full cycle on a concrete unlocked budget with the
injective scrypt fixture. -/
theorem verifyPassword_lock_unlock_cycle_witness :
    isLocked budgetUnlocked = false
    ∧ ("SALT" : String) ≠ ""
    ∧ ((∀ p, verifyPassword scryptFix budgetUnlocked p = true)
       ∧ (∀ p, (verifyPassword scryptFix
           (lockBudget scryptFix "SALT" "secret123" budgetUnlocked) p
             = true ↔ p = "secret123"))
       ∧ (∀ p, verifyPassword scryptFix
           (unlockBudget
             (lockBudget scryptFix "SALT" "secret123" budgetUnlocked)) p
               = true)) :=
  ⟨rfl, by decide,
   verifyPassword_lock_unlock_cycle scryptFix budgetUnlocked "SALT"
     "secret123" rfl (by decide)
     (fun p => scryptFix_ne_empty p "SALT")
     (fun p q h => scryptFix_inj p q "SALT" "SALT" h)⟩

/-- C2 witness: the boundary instance discharged through the inclusive
branch of the theorem. -/
theorem checkBudget_within_limit_ok_witness :
    budgetC2.daily = some 0.015
    ∧ checkBudget parseFix 0 budgetC2 [entryToday] "posts.delete" ""
        = .ok :=
  ⟨rfl,
   (checkBudget_within_limit_ok parseFix 0 budgetC2 [entryToday]
       "posts.delete" "").2.1 0.015 rfl
     (by
       have hcost : estimateCost "posts.delete" = 0.005 := rfl
       have hspend : computeTodaySpend parseFix 0 [entryToday] = 0.01 := by
         simp [computeTodaySpend, parseFix, entryToday]
       rw [hcost, hspend]; norm_num)⟩

/-- C3 counterexample: at `now = 0` the stored credential has
`expiresAt - now = 60 000`, satisfying the claim's `≥ 60 000` bound, yet
`resolveToken` invokes the refresh operation: it returns the refreshed
token "NEW" rather than the stored token "OLD", and its result changes
with the refresh collaborator. -/
theorem resolveToken_boundary_refreshes_counterexample :
    acctC3.auth.expiresAt.getD 0 - 0 ≥ 60000
    ∧ (resolveToken cfgC3 0 rfC3 none).toOption.map Prod.fst
        = some "NEW"
    ∧ "NEW" ≠ acctC3.auth.accessToken.getD ""
    ∧ (resolveToken cfgC3 0 rfC3 none).toOption
        ≠ (resolveToken cfgC3 0 rfOther none).toOption := by
  refine ⟨by decide, by decide, by decide, by decide⟩

/-- C3 (amended): for every oauth2 credential with a truthy stored
access token and `expiresAt - now > 60 000` (strictly more than the 60 s
safety margin), `resolveToken` returns the stored access token with the
store unchanged, and does not invoke the refresh operation — its result
is the same for every refresh collaborator. -/
theorem resolveToken_fresh_returns_stored
    (cfg : XcConfig) (now : ℤ)
    (refresh refresh2 : RefreshParams → OAuthFlowResult)
    (name : Option String) (account : AccountConfig)
    (hacct : getAccount cfg name = some account)
    (htype : account.auth.type = "oauth2")
    (htok : strFalsy account.auth.accessToken = false)
    (hfresh : account.auth.expiresAt.getD 0 - now > 60000) :
    resolveToken cfg now refresh name
      = .ok (account.auth.accessToken.getD "", cfg)
    ∧ resolveToken cfg now refresh name
        = resolveToken cfg now refresh2 name := by
  have hmain : ∀ rf : RefreshParams → OAuthFlowResult,
      resolveToken cfg now rf name
        = .ok (account.auth.accessToken.getD "", cfg) := by
    intro rf
    have hcond : ¬ (account.auth.expiresAt.getD 0 - 60000 ≤ now) := by
      omega
    simp [resolveToken, hacct, htype, htok, hcond]
  exact ⟨hmain refresh, (hmain refresh).trans (hmain refresh2).symm⟩

/-- C3 witness: a credential a good 1 000 s from expiry resolves to its
stored token under two different refresh collaborators. -/
theorem resolveToken_fresh_returns_stored_witness :
    getAccount cfgFresh none = some acctFresh
    ∧ acctFresh.auth.type = "oauth2"
    ∧ strFalsy acctFresh.auth.accessToken = false
    ∧ acctFresh.auth.expiresAt.getD 0 - 0 > 60000
    ∧ (resolveToken cfgFresh 0 rfC3 none = .ok ("LIVE", cfgFresh)
       ∧ resolveToken cfgFresh 0 rfC3 none
           = resolveToken cfgFresh 0 rfOther none) :=
  ⟨rfl, rfl, rfl, by decide,
   resolveToken_fresh_returns_stored cfgFresh 0 rfC3 rfOther none
     acctFresh rfl rfl rfl (by decide)⟩

/-- C6 counterexample: an entry exactly at the window boundary
(`now - timestamp = windowMs`) is included by the code's
`timestamp >= now - windowMs` test but excluded by the claim's strict
`now - timestamp < windowMs` condition, so the two sums differ. -/
theorem computeSpend_strict_window_counterexample :
    computeSpend parseFix 5 [entryT0] 5
      ≠ claimedSpendStrict parseFix 5 [entryT0] 5 := by
  have h1 : computeSpend parseFix 5 [entryT0] 5 = 1 := by
    simp [computeSpend, parseFix, entryT0]
  have h2 : claimedSpendStrict parseFix 5 [entryT0] 5 = 0 := by
    simp [claimedSpendStrict, inWindowStrict, parseFix, entryT0]
  rw [h1, h2]
  norm_num

/-- C6 (amended): `computeSpend(entries, windowMs)` equals the sum of
`estimatedCost` over the entries whose parsed timestamp satisfies
`now - timestamp ≤ windowMs` (equivalently `timestamp ≥ now − windowMs`);
it is 0 for the empty sequence; and it is invariant under permutations
of the entries. -/
theorem computeSpend_window_sum
    (parse : String → Option ℤ) (now windowMs : ℤ)
    (entries entries2 : List UsageEntry)
    (hperm : entries.Perm entries2) :
    computeSpend parse now entries windowMs
      = specSpendIncl parse now entries windowMs
    ∧ computeSpend parse now [] windowMs = 0
    ∧ computeSpend parse now entries windowMs
        = computeSpend parse now entries2 windowMs := by
  refine ⟨?_, by simp [computeSpend], ?_⟩
  · rw [computeSpend_eq_sum, specSpendIncl_eq_sum]
  · rw [computeSpend_eq_sum, computeSpend_eq_sum]
    exact List.Perm.sum_eq (hperm.map _)

/-- C6 witness: the amended description evaluated on a two-entry ledger
and its transposition. -/
theorem computeSpend_window_sum_witness :
    ([entryT0, entryToday].Perm [entryToday, entryT0])
    ∧ (computeSpend parseFix 5 [entryT0, entryToday] 5
         = specSpendIncl parseFix 5 [entryT0, entryToday] 5
       ∧ computeSpend parseFix 5 [] 5 = 0
       ∧ computeSpend parseFix 5 [entryT0, entryToday] 5
           = computeSpend parseFix 5 [entryToday, entryT0] 5) :=
  ⟨List.Perm.swap entryToday entryT0 [],
   computeSpend_window_sum parseFix 5 5 [entryT0, entryToday]
     [entryToday, entryT0] (List.Perm.swap entryToday entryT0 [])⟩

/-- C10: the spend aggregations are total over arbitrary entry lists: an
entry whose timestamp does not parse contributes nothing (dropping it
changes neither sum), and — its cost being nonnegative — giving it any
other timestamp can only raise the sums; hence a malformed timestamp in
a syntactically valid ledger line can only lower, never raise, the
reported spend. -/
theorem malformed_timestamp_only_lowers
    (parse : String → Option ℤ) (now windowMs midnight : ℤ)
    (pre post : List UsageEntry) (e : UsageEntry) (s : String)
    (hbad : parse e.timestamp = none) (hpos : 0 ≤ e.estimatedCost) :
    computeSpend parse now (pre ++ e :: post) windowMs
      = computeSpend parse now (pre ++ post) windowMs
    ∧ computeSpend parse now (pre ++ e :: post) windowMs
        ≤ computeSpend parse now
            (pre ++ { e with timestamp := s } :: post) windowMs
    ∧ computeTodaySpend parse midnight (pre ++ e :: post)
        = computeTodaySpend parse midnight (pre ++ post)
    ∧ computeTodaySpend parse midnight (pre ++ e :: post)
        ≤ computeTodaySpend parse midnight
            (pre ++ { e with timestamp := s } :: post) := by
  have hzero : ∀ cutoff : ℤ, spendContrib parse cutoff e = 0 := by
    intro c
    simp [spendContrib, hbad]
  have hge : ∀ cutoff : ℤ,
      0 ≤ spendContrib parse cutoff { e with timestamp := s } := by
    intro c
    simp only [spendContrib]
    cases hp : parse s with
    | none => simp
    | some t => by_cases hc : c ≤ t <;> simp [hc, hpos]
  refine ⟨?_, ?_, ?_, ?_⟩ <;>
    simp only [computeSpend_eq_sum, computeTodaySpend_eq_sum,
      List.map_append, List.map_cons, List.sum_append, List.sum_cons,
      hzero, zero_add]
  · have h := hge (now - windowMs)
    linarith
  · have h := hge midnight
    linarith

/-- C10 witness: a well-formed and a malformed-timestamp entry, the
latter re-timestamped to land inside the window. -/
theorem malformed_timestamp_only_lowers_witness :
    parseFix entryBadTs.timestamp = none
    ∧ (0 : ℚ) ≤ entryBadTs.estimatedCost
    ∧ (computeSpend parseFix 5 ([entryT0] ++ entryBadTs :: []) 5
         = computeSpend parseFix 5 ([entryT0] ++ []) 5
       ∧ computeSpend parseFix 5 ([entryT0] ++ entryBadTs :: []) 5
           ≤ computeSpend parseFix 5
               ([entryT0] ++ { entryBadTs with timestamp := "TODAY" }
                 :: []) 5
       ∧ computeTodaySpend parseFix 0 ([entryT0] ++ entryBadTs :: [])
           = computeTodaySpend parseFix 0 ([entryT0] ++ [])
       ∧ computeTodaySpend parseFix 0 ([entryT0] ++ entryBadTs :: [])
           ≤ computeTodaySpend parseFix 0
               ([entryT0] ++ { entryBadTs with timestamp := "TODAY" }
                 :: [])) :=
  ⟨rfl, by norm_num [entryBadTs],
   malformed_timestamp_only_lowers parseFix 5 5 0 [entryT0] []
     entryBadTs "TODAY" rfl (by norm_num [entryBadTs])⟩

/-- C1 (the code evaluated at the failing input): with the configured
default account named "work", an expiring credential read from "work" is
merged correctly by a successful refresh (new access token and expiry,
the omitted refresh token kept, all other fields preserved) but the
updated record is persisted under the literal key "default"; the "work"
record the credential was read from keeps the stale token set. -/
theorem resolveToken_refresh_persists_under_literal_default :
    (resolveToken cfgC1 100000 rfC1 none).toOption
      = some ("NEW", cfgC1after)
    ∧ lookupAccount cfgC1after.accounts "work" = some acctC1
    ∧ lookupAccount cfgC1after.accounts "default"
        = some { acctC1 with auth := authC1upd }
    ∧ cfgC1.defaultAccount = "work" := by
  refine ⟨by decide, by decide, by decide, rfl⟩

end XC
